import Mathlib

/-!
Shallow embedding of the prediction-serving core of the uterine-cancer
repository: the caller-side risk categorizer and response handling of
`frontend/src/pages/Predict.tsx`, the clinical command-line scorer
`backend/ModelScorer.java`, and the molecular module of
`frontend/src/pages/Molecular.tsx`.

JavaScript numbers are modelled as either NaN or an exact rational
(`JSNum`): every comparison the embedded code performs is a `>=` test
against the decimal thresholds 0.71 and 0.31, which is order-exact on
rationals, and NaN compares false against everything, as in JavaScript.
-/

/-- A JavaScript number as the embedded frontend code observes it:
either NaN (e.g. `parseFloat` of a missing or non-numeric field) or an
exact rational value. -/
inductive JSNum where
  | nan : JSNum
  | num : ℚ → JSNum
deriving DecidableEq

/-- JavaScript `a >= b`: false whenever either side is NaN. -/
def JSNum.ge : JSNum → JSNum → Bool
  | JSNum.num a, JSNum.num b => decide (b ≤ a)
  | _, _ => false

/-- JavaScript `x || 0` applied to a number: NaN and 0 are falsy and
yield the default 0, every other number passes through.  This is the
`parseFloat(predictionResult.p1) || 0` fallback in `Predict.tsx`. -/
def jsOrZero : JSNum → ℚ
  | JSNum.nan => 0
  | JSNum.num q => if q = 0 then 0 else q

/-- The value `Predict.tsx` binds to `p1` from the backend response:
`parseFloat(predictionResult.p1) || 0`, where the argument is the
(already parsed) result of `parseFloat` on the `p1` field. -/
def extractP1 (parsed : JSNum) : ℚ := jsOrZero parsed

/-- The record returned by `getRiskLevel` in `Predict.tsx`:
`{ level, color, bgColor }`. -/
structure RiskInfo where
  level : String
  color : String
  bgColor : String
deriving DecidableEq

/-- The `getRiskLevel` arrow function of `Predict.tsx` (results
section): `prob >= 0.71` gives High Risk, else `prob >= 0.31` gives
Moderate Risk, else Low Risk, each with its display colors. -/
def getRiskLevel (prob : JSNum) : RiskInfo :=
  if JSNum.ge prob (JSNum.num 0.71) then
    ⟨"High Risk", "text-red-600", "bg-red-50 border-red-200"⟩
  else if JSNum.ge prob (JSNum.num 0.31) then
    ⟨"Moderate Risk", "text-orange-600", "bg-orange-50 border-orange-200"⟩
  else
    ⟨"Low Risk", "text-green-600", "bg-green-50 border-green-200"⟩

/-- Height of a risk tier in the Low < Moderate < High order, used to
state monotonicity of the categorizer. -/
def riskRank (level : String) : Nat :=
  if level = "High Risk" then 2 else if level = "Moderate Risk" then 1 else 0

/-- The 18 feature names of `ModelScorer.java`, in the exact order the
H2O model expects them (`featureNames` array). -/
def featureNames : List String :=
  ["Age", "BMI", "MenopauseStatus", "AbnormalBleeding", "PelvicPain",
   "ThickEndometrium", "Hypertension", "Diabetes", "FamilyHistoryCancer",
   "Smoking", "EstrogenTherapy", "CA125_Level", "HistologyType", "Parity",
   "Gravidity", "HormoneReceptorStatus", "VaginalDischarge",
   "UnexplainedWeightLoss"]

/-- The `RowData` built by the loop in `ModelScorer.main`:
`row.put(featureNames[i], args[i])` for each index, i.e. the
position-wise pairing of feature names with command-line arguments. -/
def buildRow (args : List String) : List (String × String) :=
  featureNames.zip args

/-- The `BinomialModelPrediction` returned by
`model.predictBinomial(row)`: a predicted label and the two class
probabilities. -/
structure BinomialModelPrediction where
  label : String
  p0 : ℚ
  p1 : ℚ
deriving DecidableEq

/-- The `classProbabilities` array of a binomial prediction, index 0
the negative class, index 1 the positive class. -/
def classProbabilities (p : BinomialModelPrediction) : List ℚ := [p.p0, p.p1]

/-- The value `ModelScorer.main` prints: `p.classProbabilities[1]`. -/
def positiveProb (p : BinomialModelPrediction) : ℚ :=
  (classProbabilities p).getD 1 0

/-- Observable outcome of one run of `ModelScorer.main`: the process
exit code, the probability printed to stdout (if any), and whether
`predictBinomial` was ever invoked. -/
structure ScorerOutcome where
  exitCode : Nat
  output : Option ℚ
  scoringAttempted : Bool
deriving DecidableEq

/-- `ModelScorer.main`, parameterized by the loaded MOJO model, seen as
a function from a scored row to a binomial prediction (`none` models a
`PredictException` or any other exception, which the catch blocks turn
into exit code 1).  With a wrong argument count it prints the error to
stderr and exits 1 before any model call; otherwise it builds the row,
scores it, and prints the positive-class probability. -/
def modelScorerMain (model : List (String × String) → Option BinomialModelPrediction)
    (args : List String) : ScorerOutcome :=
  if args.length = featureNames.length then
    match model (buildRow args) with
    | some p => ⟨0, some (positiveProb p), true⟩
    | none => ⟨1, none, true⟩
  else
    ⟨1, none, false⟩

/-- Modelled from the spec: the FastAPI backend that wraps
`ModelScorer` is not in the repository (only the scorer it shells out
to is).  Per section 6 of the design, the clinical variant returns a
`{ predict, p0, p1 }`-style response: the predicted label plus the two
per-class probabilities of the binomial prediction. -/
structure ClinicalResponse where
  predict : String
  p0 : ℚ
  p1 : ℚ
deriving DecidableEq

/-- Modelled from the spec: assembly of the clinical `{ predict, p0,
p1 }` response from a successful binomial prediction. -/
def clinicalRespond (p : BinomialModelPrediction) : ClinicalResponse :=
  ⟨p.label, p.p0, p.p1⟩

/-- The `MolecularFormData` interface of `Molecular.tsx`. -/
structure MolecularFormData where
  diagnosisAge : ℚ
  mutationCount : ℚ
  msiMantisScore : ℚ
  tmbNonsynonymous : ℚ
  fractionGenomeAltered : ℚ
  aneuploidyScore : ℚ
deriving DecidableEq

/-- The `molecular_subtype` part of the molecular response. -/
structure SubtypePrediction where
  predicted_class : String
  confidence : ℚ
deriving DecidableEq

/-- The `survival` part of the molecular response. -/
structure SurvivalPrediction where
  prediction : String
  survival_probability : ℚ
  risk_category : String
deriving DecidableEq

/-- The combined molecular response shape. -/
structure MolecularResponse where
  molecular_subtype : SubtypePrediction
  survival : SurvivalPrediction
deriving DecidableEq

/-- The prediction result `onSubmit` in `Molecular.tsx` stores: it
ignores the submitted form data and builds the hard-coded
`mockResponse` object. -/
def molecularOnSubmit (_data : MolecularFormData) : MolecularResponse :=
  { molecular_subtype := { predicted_class := "CN_HIGH", confidence := 0.92 },
    survival := { prediction := "Living", survival_probability := 0.85,
                  risk_category := "Low Risk" } }

/-- The `PredictionFormData` interface of `Predict.tsx` (numeric fields
as in the TypeScript interface; the rest are select/string fields). -/
structure PredictionFormData where
  patientId : String
  age : ℚ
  bmi : ℚ
  menopauseStatus : String
  abnormalBleeding : String
  pelvicPain : String
  thickEndometrium : ℚ
  hypertension : String
  diabetes : String
  familyHistoryCancer : String
  smoking : String
  estrogenTherapy : String
  ca125Level : ℚ
  histologyType : String
  parity : ℚ
  gravidity : ℚ
  hormoneReceptorStatus : String
  vaginalDischarge : String
  unexplainedWeightLoss : String
deriving DecidableEq

/-- A JSON value as it appears in the request body: a number or a
string. -/
inductive JVal where
  | num : ℚ → JVal
  | str : String → JVal
deriving DecidableEq

/-- The JSON body `onSubmit` in `Predict.tsx` posts to
`http://localhost:8000/predict`, as the ordered field list of the
object literal passed to `JSON.stringify`. -/
def requestBody (d : PredictionFormData) : List (String × JVal) :=
  [("Age", JVal.num d.age),
   ("BMI", JVal.num d.bmi),
   ("MenopauseStatus", JVal.str d.menopauseStatus),
   ("AbnormalBleeding", JVal.str d.abnormalBleeding),
   ("PelvicPain", JVal.str d.pelvicPain),
   ("ThickEndometrium", JVal.num d.thickEndometrium),
   ("Hypertension", JVal.str d.hypertension),
   ("Diabetes", JVal.str d.diabetes),
   ("FamilyHistoryCancer", JVal.str d.familyHistoryCancer),
   ("Smoking", JVal.str d.smoking),
   ("EstrogenTherapy", JVal.str d.estrogenTherapy),
   ("CA125_Level", JVal.num d.ca125Level),
   ("HistologyType", JVal.str d.histologyType),
   ("Parity", JVal.num d.parity),
   ("Gravidity", JVal.num d.gravidity),
   ("HormoneReceptorStatus", JVal.str d.hormoneReceptorStatus),
   ("VaginalDischarge", JVal.str d.vaginalDischarge),
   ("UnexplainedWeightLoss", JVal.str d.unexplainedWeightLoss)]

/-- Characterization of `getRiskLevel` on a non-NaN probability: the
two Boolean `>=` tests become rational comparisons. -/
theorem getRiskLevel_num (p : ℚ) :
    getRiskLevel (JSNum.num p) =
      if 0.71 ≤ p then
        ⟨"High Risk", "text-red-600", "bg-red-50 border-red-200"⟩
      else if 0.31 ≤ p then
        ⟨"Moderate Risk", "text-orange-600", "bg-orange-50 border-orange-200"⟩
      else
        ⟨"Low Risk", "text-green-600", "bg-green-50 border-green-200"⟩ := by
  simp [getRiskLevel, JSNum.ge]

/-- The claim names the middle tier "Medium Risk", but `getRiskLevel`
labels it "Moderate Risk": at probability 0.31 the returned level is
not "Medium Risk". -/
theorem c1_medium_risk_counterexample :
    (getRiskLevel (JSNum.num 0.31)).level ≠ "Medium Risk" := by
  rw [getRiskLevel_num]
  norm_num
  decide

/-- C1 (amended): the Risk Categorizer of `Predict.tsx` is a total,
monotonic step function: probability at least 0.71 yields "High Risk",
at least 0.31 but below 0.71 yields "Moderate Risk", below 0.31 yields
"Low Risk"; tiers never decrease as the probability grows, and the six
example points land on Low, Low, Moderate, Moderate, High, High. -/
theorem c1_risk_categorizer_thresholds (p q : ℚ) :
    (0.71 ≤ p → (getRiskLevel (JSNum.num p)).level = "High Risk") ∧
    (0.31 ≤ p → p < 0.71 → (getRiskLevel (JSNum.num p)).level = "Moderate Risk") ∧
    (p < 0.31 → (getRiskLevel (JSNum.num p)).level = "Low Risk") ∧
    (p ≤ q →
      riskRank (getRiskLevel (JSNum.num p)).level ≤
        riskRank (getRiskLevel (JSNum.num q)).level) ∧
    (getRiskLevel (JSNum.num 0)).level = "Low Risk" ∧
    (getRiskLevel (JSNum.num 0.30999)).level = "Low Risk" ∧
    (getRiskLevel (JSNum.num 0.31)).level = "Moderate Risk" ∧
    (getRiskLevel (JSNum.num 0.70999)).level = "Moderate Risk" ∧
    (getRiskLevel (JSNum.num 0.71)).level = "High Risk" ∧
    (getRiskLevel (JSNum.num 1)).level = "High Risk" := by
  rw [getRiskLevel_num p, getRiskLevel_num q, getRiskLevel_num 0,
    getRiskLevel_num 0.30999, getRiskLevel_num 0.31, getRiskLevel_num 0.70999,
    getRiskLevel_num 0.71, getRiskLevel_num 1]
  refine ⟨?_, ?_, ?_, ?_, ?_, ?_, ?_, ?_, ?_, ?_⟩
  · intro h; rw [if_pos h]
  · intro h1 h2; rw [if_neg (by linarith), if_pos h1]
  · intro h; rw [if_neg (by linarith), if_neg (by linarith)]
  · intro hpq
    by_cases h1 : (0.71:ℚ) ≤ p
    · rw [if_pos h1, if_pos (by linarith)]
    · rw [if_neg h1]
      by_cases h2 : (0.31:ℚ) ≤ p
      · rw [if_pos h2]
        by_cases h3 : (0.71:ℚ) ≤ q
        · rw [if_pos h3]; simp [riskRank]
        · rw [if_neg h3, if_pos (by linarith)]
      · rw [if_neg h2]; simp [riskRank]
  all_goals norm_num

/-- Witness for C1 at concrete probabilities 0.8, 0.5, 0.1 and the
pair 0.2 ≤ 0.9. -/
theorem c1_risk_categorizer_thresholds_witness :
    (getRiskLevel (JSNum.num 0.8)).level = "High Risk" ∧
    (getRiskLevel (JSNum.num 0.5)).level = "Moderate Risk" ∧
    (getRiskLevel (JSNum.num 0.1)).level = "Low Risk" ∧
    riskRank (getRiskLevel (JSNum.num 0.2)).level ≤
      riskRank (getRiskLevel (JSNum.num 0.9)).level :=
  ⟨(c1_risk_categorizer_thresholds 0.8 0.8).1 (by norm_num),
   (c1_risk_categorizer_thresholds 0.5 0.5).2.1 (by norm_num) (by norm_num),
   (c1_risk_categorizer_thresholds 0.1 0.1).2.2.1 (by norm_num),
   (c1_risk_categorizer_thresholds 0.2 0.9).2.2.2.1 (by norm_num)⟩

/-- C2: contrary to the no-silent-defaults policy, the results section
of `Predict.tsx` computes `parseFloat(predictionResult.p1) || 0`, so a
missing or non-numeric `p1` (NaN after parsing) is silently replaced
by the guessed value 0 and then displayed as "Low Risk" instead of
failing the request. -/
theorem c2_missing_p1_silently_defaults_to_zero :
    extractP1 JSNum.nan = 0 ∧
    (getRiskLevel (JSNum.num (extractP1 JSNum.nan))).level = "Low Risk" := by
  refine ⟨rfl, ?_⟩
  rw [show extractP1 JSNum.nan = 0 from rfl, getRiskLevel_num]
  norm_num

/-- The claim asserts that probability 0.9 is categorized "Low Risk"
by the implemented thresholds; in fact `getRiskLevel` does not return
"Low Risk" at 0.9. -/
theorem c3_survival_09_counterexample :
    (getRiskLevel (JSNum.num 0.9)).level ≠ "Low Risk" := by
  rw [getRiskLevel_num]
  norm_num
  decide

/-- C3 (amended): applying the implemented thresholds to 0.9 yields
"High Risk", not "Low Risk"; the molecular mock likewise pairs
survival probability 0.85 with the literal "Low Risk" even though the
thresholds map 0.85 to "High Risk", so the example's Low-Risk category
is a fixed constant, not the categorizer applied to the survival
probability. -/
theorem c3_survival_09_is_high_risk (d : MolecularFormData) :
    (getRiskLevel (JSNum.num 0.9)).level = "High Risk" ∧
    (molecularOnSubmit d).survival.survival_probability = 0.85 ∧
    (molecularOnSubmit d).survival.risk_category = "Low Risk" ∧
    (getRiskLevel (JSNum.num 0.85)).level = "High Risk" := by
  refine ⟨?_, rfl, rfl, ?_⟩ <;> rw [getRiskLevel_num] <;> norm_num

/-- C10: `getRiskLevel` is total over every JavaScript number: it
always returns one of the three tiers; any input for which neither
`>= 0.71` nor `>= 0.31` holds (NaN included) falls through to "Low
Risk", as do negative numbers, and numbers above 1 still land on a
tier rather than being rejected. -/
theorem c10_getRiskLevel_total (x : JSNum) :
    ((getRiskLevel x).level = "High Risk" ∨
      (getRiskLevel x).level = "Moderate Risk" ∨
      (getRiskLevel x).level = "Low Risk") ∧
    (JSNum.ge x (JSNum.num 0.71) = false → JSNum.ge x (JSNum.num 0.31) = false →
      (getRiskLevel x).level = "Low Risk") ∧
    (getRiskLevel JSNum.nan).level = "Low Risk" ∧
    (getRiskLevel (JSNum.num (-1))).level = "Low Risk" ∧
    (getRiskLevel (JSNum.num 2)).level = "High Risk" := by
  refine ⟨?_, ?_, rfl, ?_, ?_⟩
  · unfold getRiskLevel
    split
    · exact Or.inl rfl
    · split
      · exact Or.inr (Or.inl rfl)
      · exact Or.inr (Or.inr rfl)
  · intro h1 h2
    simp [getRiskLevel, h1, h2]
  · rw [getRiskLevel_num]; norm_num
  · rw [getRiskLevel_num]; norm_num

/-- Witness for C10 at the non-comparable input NaN. -/
theorem c10_getRiskLevel_total_witness :
    (getRiskLevel JSNum.nan).level = "Low Risk" :=
  (c10_getRiskLevel_total JSNum.nan).2.1 rfl rfl

/-- C4: whenever the argument count differs from the 18-name schema,
`ModelScorer.main` exits nonzero, prints no prediction, and never
invokes the model. -/
theorem c4_wrong_arity_fails
    (model : List (String × String) → Option BinomialModelPrediction)
    (args : List String) (h : args.length ≠ featureNames.length) :
    (modelScorerMain model args).exitCode ≠ 0 ∧
    (modelScorerMain model args).output = none ∧
    (modelScorerMain model args).scoringAttempted = false := by
  simp [modelScorerMain, h]

/-- Witness for C4 with an empty argument list. -/
theorem c4_wrong_arity_fails_witness :
    ([] : List String).length ≠ featureNames.length ∧
    ((modelScorerMain (fun _ => none) []).exitCode ≠ 0 ∧
     (modelScorerMain (fun _ => none) []).output = none ∧
     (modelScorerMain (fun _ => none) []).scoringAttempted = false) :=
  ⟨by decide, c4_wrong_arity_fails (fun _ => none) [] (by decide)⟩

/-- C5: with exactly as many arguments as feature names, the built row
pairs the i-th feature name with the i-th argument (its name column is
exactly `featureNames`, its value column exactly the arguments), the
names are pairwise distinct so each is bound exactly once, and the
schema has 18 entries. -/
theorem c5_row_matches_schema (args : List String)
    (h : args.length = featureNames.length) :
    (buildRow args).map Prod.fst = featureNames ∧
    (buildRow args).map Prod.snd = args ∧
    (buildRow args).length = featureNames.length ∧
    featureNames.Nodup ∧
    featureNames.length = 18 := by
  refine ⟨?_, ?_, ?_, by decide, by decide⟩
  · simpa [buildRow] using List.map_fst_zip featureNames args h.ge
  · simpa [buildRow] using List.map_snd_zip featureNames args h.le
  · simp [buildRow, h]

/-- Witness for C5 with a concrete 18-argument list. -/
theorem c5_row_matches_schema_witness :
    (List.replicate 18 "0").length = featureNames.length ∧
    (buildRow (List.replicate 18 "0")).map Prod.fst = featureNames :=
  ⟨by decide, (c5_row_matches_schema (List.replicate 18 "0") (by decide)).1⟩

/-- C6: a successful clinical scoring run yields a `{ predict, p0,
p1 }` response carrying the predicted label and both class
probabilities; its positive-class probability is exactly the model's
`classProbabilities[1]`, the same value the scorer prints, and it lies
in the unit interval whenever the loaded binomial model emits a
probability in the unit interval. -/
theorem c6_clinical_response
    (model : List (String × String) → Option BinomialModelPrediction)
    (args : List String) (p : BinomialModelPrediction)
    (hlen : args.length = featureNames.length)
    (hmodel : model (buildRow args) = some p)
    (h0 : 0 ≤ p.p1) (h1 : p.p1 ≤ 1) :
    (clinicalRespond p).predict = p.label ∧
    (clinicalRespond p).p0 = p.p0 ∧
    (clinicalRespond p).p1 = positiveProb p ∧
    positiveProb p = (classProbabilities p).getD 1 0 ∧
    0 ≤ (clinicalRespond p).p1 ∧ (clinicalRespond p).p1 ≤ 1 ∧
    (modelScorerMain model args).output = some (positiveProb p) ∧
    (modelScorerMain model args).exitCode = 0 := by
  refine ⟨rfl, rfl, rfl, rfl, h0, h1, ?_, ?_⟩ <;>
    simp [modelScorerMain, hlen, hmodel]

/-- Witness for C6 with a concrete model returning probability 7/10. -/
theorem c6_clinical_response_witness :
    (List.replicate 18 "0").length = featureNames.length ∧
    (0:ℚ) ≤ 7/10 ∧ (7/10:ℚ) ≤ 1 ∧
    (modelScorerMain (fun _ => some ⟨"1", 3/10, 7/10⟩)
        (List.replicate 18 "0")).output =
      some (positiveProb ⟨"1", 3/10, 7/10⟩) :=
  ⟨by decide, by norm_num, by norm_num,
   (c6_clinical_response (fun _ => some ⟨"1", 3/10, 7/10⟩)
      (List.replicate 18 "0") ⟨"1", 3/10, 7/10⟩ (by decide) rfl
      (by norm_num) (by norm_num)).2.2.2.2.2.2.1⟩

/-- C7: the inference pipeline is deterministic: equal probabilities
get equal risk records from `getRiskLevel`, and equal molecular form
submissions get equal results. -/
theorem c7_deterministic_pipeline :
    (∀ p q : JSNum, p = q → getRiskLevel p = getRiskLevel q) ∧
    (∀ d e : MolecularFormData, d = e →
      molecularOnSubmit d = molecularOnSubmit e) :=
  ⟨fun _ _ h => by rw [h], fun _ _ h => by rw [h]⟩

/-- Witness for C7 at probability 0.5 and one concrete form record. -/
theorem c7_deterministic_pipeline_witness :
    getRiskLevel (JSNum.num 0.5) = getRiskLevel (JSNum.num 0.5) ∧
    molecularOnSubmit ⟨65, 1250, 0.45, 10, 0.2, 5⟩ =
      molecularOnSubmit ⟨65, 1250, 0.45, 10, 0.2, 5⟩ :=
  ⟨c7_deterministic_pipeline.1 (JSNum.num 0.5) (JSNum.num 0.5) rfl,
   c7_deterministic_pipeline.2 ⟨65, 1250, 0.45, 10, 0.2, 5⟩
     ⟨65, 1250, 0.45, 10, 0.2, 5⟩ rfl⟩

/-- C8: the molecular `onSubmit` stores the same hard-coded response
regardless of the submitted biomarker values. -/
theorem c8_molecular_mock_constant (d e : MolecularFormData) :
    molecularOnSubmit d =
      ⟨⟨"CN_HIGH", 0.92⟩, ⟨"Living", 0.85, "Low Risk"⟩⟩ ∧
    molecularOnSubmit d = molecularOnSubmit e :=
  ⟨rfl, rfl⟩

/-- C9: the clinical request body consists of exactly the 18 schema
fields in order, carries no `patientId` key, and is unchanged by any
change to the collected patient id. -/
theorem c9_request_body_excludes_patient_id (d : PredictionFormData)
    (pid : String) :
    (requestBody d).map Prod.fst = featureNames ∧
    (requestBody d).length = 18 ∧
    "patientId" ∉ (requestBody d).map Prod.fst ∧
    requestBody { d with patientId := pid } = requestBody d := by
  refine ⟨rfl, rfl, ?_, rfl⟩
  rw [show (requestBody d).map Prod.fst = featureNames from rfl]
  decide
